import Mathlib

/-!
Shallow embedding of the staging/delivery order state machines of the
arteria-delivery service, translated from:

  - delivery/models/db_models.py           (status enums, order rows)
  - delivery/services/external_program_service.py
  - delivery/services/staging_service.py   (stage_order, _copy_dir, kill)
  - delivery/services/dds_service.py       (_run_dds_put, deliver_by_staging_id)
  - delivery/models/project.py             (DDSProject.deliver, _run_delivery,
                                            _parse_dds_project_id)
  - delivery/repositories/dds_repository.py (was_delivered_before)

Coroutines are modelled as pure functions from an environment (the outcomes
of the external processes and OS calls the code performs) to a result, the
final state of the mutated order row, and a trace of observable side effects
(process spawns, database commits, directory removals, error logs).  A
tornado gen.coroutine that is invoked runs synchronously up to its first
yield of an incomplete future; events up to that point belong to the trace
of the caller, events after it belong to the background task when the
caller does not yield the returned future.  Python exceptions are modelled
with Except: a raised exception is an error value that propagates unless
the embedded code has a matching except clause.
-/

namespace Arteria

/-- Staging statuses, from db_models.StagingStatus. -/
inductive StagingStatus
  | pending
  | staging_in_progress
  | staging_successful
  | staging_failed
deriving DecidableEq, Repr

/-- Delivery statuses, from db_models.DeliveryStatus. -/
inductive DeliveryStatus
  | pending
  | delivery_in_progress
  | delivery_successful
  | delivery_failed
  | delivery_skipped
deriving DecidableEq, Repr

/-- A staging_orders row, from db_models.StagingOrder.  The size and pid
columns are nullable, hence Option. -/
structure StagingOrder where
  id : Nat
  source : String
  status : StagingStatus
  staging_target : String
  size : Option Nat
  pid : Option Nat
deriving DecidableEq, Repr

/-- db_models.StagingOrder.get_staging_path, which is
os.path.join(self.staging_target), i.e. the staging_target itself. -/
def StagingOrder.get_staging_path (so : StagingOrder) : String :=
  so.staging_target

/-- A delivery_orders row, from db_models.DeliveryOrder. -/
structure DeliveryOrder where
  id : Nat
  delivery_source : String
  delivery_project : String
  ngi_project_name : Option String
  dds_pid : Option Nat
  delivery_status : DeliveryStatus
  staging_order_id : Nat
deriving DecidableEq, Repr

/-- A dds_deliveries row, from db_models.DDSDelivery.  ngi_project_name is a
nullable column. -/
structure DDSDelivery where
  dds_project_id : String
  ngi_project_name : Option String
  status : DeliveryStatus
deriving DecidableEq, Repr

/-- A dds_puts row, from db_models.DDSPut.  dds_project_id is a foreign key
into dds_deliveries. -/
structure DDSPut where
  id : Nat
  dds_project_id : String
  dds_pid : Nat
  delivery_source : String
  delivery_path : String
  destination : Option String
  status : DeliveryStatus
deriving DecidableEq, Repr

/-- The tables consulted by DatabaseBasedDDSPutRepository. -/
structure DDSDatabase where
  dds_deliveries : List DDSDelivery
  dds_puts : List DDSPut
deriving DecidableEq, Repr

/-- DatabaseBasedDDSPutRepository.was_delivered_before
(delivery/repositories/dds_repository.py): a query over DDSPut joined with
DDSDelivery on the dds_project_id foreign key, filtered on
DDSDelivery.ngi_project_name == ngi_project_name and
DDSPut.delivery_source == source, returning whether a first row exists.
The status column of the joined rows is not part of the query. -/
def was_delivered_before (db : DDSDatabase) (ngi_project_name source : String) : Bool :=
  db.dds_puts.any fun put =>
    db.dds_deliveries.any fun dd =>
      put.dds_project_id == dd.dds_project_id
        && dd.ngi_project_name == some ngi_project_name
        && put.delivery_source == source

/-! ## External process execution -/

/-- The observable outcome of one finished subprocess: exit status and the
captured stdout/stderr.  This is what wait_for_exit plus the two pipe reads
in ExternalProgramService.wait_for_execution produce. -/
structure ProcOutcome where
  status_code : Int
  stdout : String
  stderr : String
deriving DecidableEq, Repr

/-- models.execution.ExecutionResult as consumed by the services: stdout,
stderr and status_code of a finished execution.  (models/execution.py is a
plain value holder; this mirrors its constructor arguments.) -/
structure ExecutionResult where
  stdout : String
  stderr : String
  status_code : Int
deriving DecidableEq, Repr

/-- Distinguishes the RuntimeError raise sites by the shape of the message
each one formats. -/
inductive RTErrorMsg
  /-- external_program_service.py: "Failed to run external command: {stderr}.
  Program returned status code: {code}". -/
  | failedExternalCommand (stderr : String) (status_code : Int)
  /-- project.py _run_delivery / dds_service.py _run_dds_put: "Failed to
  deliver: ... DDS returned status code: {code}". -/
  | failedToDeliver (status_code : Int)
deriving DecidableEq, Repr

/-- The Python exception types the embedded code can raise. -/
inductive PyError
  | runtimeError (msg : RTErrorMsg)
  | invalidStatus (msg : String)
  | cannotParseDDSOutput (stdout : String)
  /-- os.kill(None, SIGTERM): the pid column is NULL. -/
  | typeError
  | attributeError
  | assertionError
  | osError
deriving DecidableEq, Repr

/-- ExternalProgramService.wait_for_execution: waits for the exit status,
reads stdout/stderr, and raises RuntimeError carrying stderr and the status
code whenever the status is non-zero; only a zero-status execution produces
an ExecutionResult. -/
def wait_for_execution (p : ProcOutcome) : Except PyError ExecutionResult :=
  if p.status_code ≠ 0 then
    .error (.runtimeError (.failedExternalCommand p.stderr p.status_code))
  else
    .ok ⟨p.stdout, p.stderr, p.status_code⟩

/-! ## Parsing the dds project-creation output

DDSProject._parse_dds_project_id searches the stdout of `dds project create`
with the regular expression `Project created with id: (snpseq\d+)` and raises
CannotParseDDSOutputException when there is no match.  The search is embedded
as a left-to-right scan over the character list: at each position, a match
requires the literal "Project created with id: snpseq" followed by at least
one digit, and the captured group is "snpseq" followed by the maximal digit
run. -/

/-- Value of a digit list read as a decimal number. -/
def digitsToNat (ds : List Char) : Nat :=
  ds.foldl (fun acc c => acc * 10 + (c.toNat - 48)) 0

/-- The scan underlying the regex search in _parse_dds_project_id. -/
def ddsIdScan : List Char → Option String
  | [] => none
  | c :: rest =>
    let lit := "Project created with id: snpseq".toList
    if lit.isPrefixOf (c :: rest) then
      let ds := ((c :: rest).drop lit.length).takeWhile Char.isDigit
      if ds.isEmpty then ddsIdScan rest
      else some ("snpseq" ++ String.mk ds)
    else ddsIdScan rest

/-- Whether the stdout contains an occurrence of the fixed pattern
`Project created with id: snpseq\d+`. -/
def hasDDSProjectIdPattern (s : String) : Bool :=
  (ddsIdScan s.toList).isSome

/-- DDSProject._parse_dds_project_id (delivery/models/project.py): returns
the captured project id on a match and raises CannotParseDDSOutputException
on no match. -/
def parse_dds_project_id (s : String) : Except PyError String :=
  match ddsIdScan s.toList with
  | some projectId => .ok projectId
  | none => .error (.cannotParseDDSOutput s)

/-- The error path of DDSProject.new for project creation: the external
`dds project create` execution is awaited through wait_for_execution (which
raises RuntimeError with stderr on non-zero exit) and, on a zero exit, the
project id is parsed out of stdout by _parse_dds_project_id. -/
def createProjectId (p : ProcOutcome) : Except PyError String :=
  (wait_for_execution p).bind fun res => parse_dds_project_id res.stdout

/-! ## Side-effect traces -/

/-- Identifies the log.error call sites that matter for dead-branch
analysis. -/
inductive LogTag
  /-- staging_service.py _copy_dir, else branch: "Failed in staging ...
  because rsync returned exit code ...". -/
  | rsyncNonZero
  /-- staging_service.py _copy_dir, except branch: "Failed in staging ...
  because this exception was logged ...". -/
  | stagingException
  /-- project.py _run_delivery / dds_service.py _run_dds_put, else branch:
  "Failed to deliver ... DDS returned status code ...". -/
  | ddsNonZero
  /-- dds_service.py _run_dds_put, except branch. -/
  | deliveryException
deriving DecidableEq, Repr

/-- Observable side effects of the orchestrators, in program order.  A
commit event records the snapshot of the mutated order row that the
session.commit() call makes durable. -/
inductive Event
  /-- external_program_service.run: the subprocess is spawned. -/
  | run (cmd : List String)
  /-- session.commit() with a StagingOrder row pending in the session. -/
  | commitStaging (so : StagingOrder)
  /-- session.commit() with a DeliveryOrder row pending in the session. -/
  | commitDelivery (ord : DeliveryOrder)
  /-- shutil.rmtree on the staged directory. -/
  | rmtree (path : String)
  /-- file_system_service.makedirs on the staging target. -/
  | makedirs (path : String)
  /-- log.error at one of the tagged call sites. -/
  | logError (tag : LogTag)
deriving DecidableEq, Repr

/-! ## Staging service -/

/-- The rsync invocation built by StagingService._copy_dir: the source with
a trailing slash mirrored into the staging target, recursively, dereferencing
symlinks and preserving times, with --stats for the size report. -/
def rsyncCmd (so : StagingOrder) : List String :=
  ["rsync", "--stats", "-r", "--copy-links", "--times",
   so.source ++ "/", so.staging_target]

/-- The scan underlying the regex search
`Total file size: ([\d,]+) bytes` that _copy_dir applies to the rsync
stdout.  At each position a match requires the literal
"Total file size: " followed by a nonempty run of digits or commas whose
maximal extent is followed by the literal " bytes"; the captured run is then
stripped of commas and read as a number.  A captured run without any digit
makes int() fail in the Python code, which ends in the same except branch as
a failed search, so both are none here. -/
def rsyncSizeScan : List Char → Option Nat
  | [] => none
  | c :: rest =>
    let lit := "Total file size: ".toList
    if lit.isPrefixOf (c :: rest) then
      let after := (c :: rest).drop lit.length
      let run := after.takeWhile fun ch => ch.isDigit || ch == ','
      let tail := after.dropWhile fun ch => ch.isDigit || ch == ','
      if run.isEmpty then rsyncSizeScan rest
      else if (" bytes".toList).isPrefixOf tail then
        let ds := run.filter Char.isDigit
        if ds.isEmpty then none else some (digitsToNat ds)
      else rsyncSizeScan rest
    else rsyncSizeScan rest

/-- Environment of one _copy_dir run: the pid handed out when the rsync
subprocess is spawned and the outcome of that subprocess. -/
structure CopyEnv where
  rsync_pid : Nat
  rsync : ProcOutcome
deriving Repr

/-- StagingService._copy_dir (delivery/services/staging_service.py): spawns
rsync, commits the pid, awaits the execution, and updates the order to
staging_successful with the parsed size on a zero exit, or to staging_failed
either in the else branch (non-zero status on a returned result) or in the
except branch (any exception, which includes the RuntimeError that
wait_for_execution raises on non-zero exit and a failed size parse).  The
final status is always committed in the finally block and no exception
escapes. -/
def copyDir (env : CopyEnv) (so : StagingOrder) : StagingOrder × List Event :=
  let cmd := rsyncCmd so
  let so1 : StagingOrder := { so with pid := some env.rsync_pid }
  let evs0 := [Event.run cmd, Event.commitStaging so1]
  match wait_for_execution env.rsync with
  | .error _ =>
    let so2 : StagingOrder := { so1 with status := .staging_failed }
    (so2, evs0 ++ [Event.logError .stagingException, Event.commitStaging so2])
  | .ok res =>
    if res.status_code = 0 then
      match rsyncSizeScan res.stdout.toList with
      | some n =>
        let so2 : StagingOrder :=
          { so1 with size := some n, status := .staging_successful }
        (so2, evs0 ++ [Event.commitStaging so2])
      | none =>
        let so2 : StagingOrder := { so1 with status := .staging_failed }
        (so2, evs0 ++ [Event.logError .stagingException, Event.commitStaging so2])
    else
      let so2 : StagingOrder := { so1 with status := .staging_failed }
      (so2, evs0 ++ [Event.logError .rsyncNonZero, Event.commitStaging so2])

/-- Environment of one stage_order run: whether the staging target already
exists, whether makedirs succeeds when it is called, and the _copy_dir
environment. -/
structure StageEnv where
  targetExists : Bool
  makedirsOk : Bool
  copy : CopyEnv
deriving Repr

/-- The message of the InvalidStatusException raised by stage_order. -/
def stageInvalidMsg : String :=
  "Cannot start staging a delivery order with status"

/-- StagingService.stage_order (delivery/services/staging_service.py).  The
try block first raises InvalidStatusException unless the order status is
pending; that exception, like any other raised inside the try block, is
caught by the except clause, which sets the order status to staging_failed,
commits, and re-raises.  On a pending order the status is set to
staging_in_progress and committed, the staging target directory is created
if absent, and _copy_dir is awaited (it swallows its own failures). -/
def stageOrder (env : StageEnv) (so : StagingOrder) :
    Except PyError Unit × StagingOrder × List Event :=
  if so.status ≠ .pending then
    let so2 : StagingOrder := { so with status := .staging_failed }
    (.error (.invalidStatus stageInvalidMsg), so2, [Event.commitStaging so2])
  else
    let so1 : StagingOrder := { so with status := .staging_in_progress }
    if env.targetExists then
      let (so2, cevs) := copyDir env.copy so1
      (.ok (), so2, Event.commitStaging so1 :: cevs)
    else if env.makedirsOk then
      let (so2, cevs) := copyDir env.copy so1
      (.ok (), so2,
        Event.commitStaging so1 :: Event.makedirs so.staging_target :: cevs)
    else
      let so2 : StagingOrder := { so1 with status := .staging_failed }
      (.error .osError, so2,
        [Event.commitStaging so1, Event.commitStaging so2])

/-- Environment of one kill attempt: whether os.kill on a present pid
delivers the signal (false models the OSError cases: permission denied,
process already gone). -/
structure KillEnv where
  signalOk : Bool
deriving Repr

/-- StagingService.kill_process_of_staging_order
(delivery/services/staging_service.py), applied to the looked-up order.
Returns False for a missing order; raises-and-catches
InvalidStatusException (returning False) when the status is not
staging_in_progress; os.kill on a NULL pid column raises TypeError, which
no except clause catches; a caught OSError returns False; on a delivered
signal the status is set to staging_failed, committed, and True is
returned.  The second component is the resulting order row. -/
def kill_process_of_staging_order (env : KillEnv) (so? : Option StagingOrder) :
    Except PyError (Bool × Option StagingOrder) :=
  match so? with
  | none => .ok (false, none)
  | some so =>
    if so.status ≠ .staging_in_progress then
      .ok (false, some so)
    else
      match so.pid with
      | none => .error .typeError
      | some _ =>
        if env.signalOk then
          .ok (true, some { so with status := .staging_failed })
        else
          .ok (false, some so)

/-! ## Delivery orchestration -/

/-- The configuration a dds invocation is built from: token path, log path
(dds_conf) and the staging mount directory. -/
structure DDSConfig where
  token_path : String
  log_path : String
  staging_dir : String
deriving DecidableEq, Repr

/-- DDSProject._base_cmd / the command prefix built in _run_dds_put. -/
def baseCmd (cfg : DDSConfig) : List String :=
  ["dds", "--token-path", cfg.token_path, "--log-file", cfg.log_path,
   "--no-prompt"]

/-- The `dds data put` command built both by DDSProject.deliver and by
DDSService._run_dds_put (same flags at both sites: mount dir, source,
project, silent). -/
def dataPutCmd (cfg : DDSConfig) (source project : String) : List String :=
  baseCmd cfg ++
    ["data", "put", "--mount-dir", cfg.staging_dir, "--source", source,
     "--project", project, "--silent"]

/-- The `dds project status release` command built by DDSProject.release.
The deadline flag is added under Python truthiness, so a deadline of 0 is
dropped like an absent one; --no-mail is added when email is false. -/
def releaseCmd (cfg : DDSConfig) (project : String) (deadline : Option Nat)
    (email : Bool) : List String :=
  baseCmd cfg ++ ["project", "status", "release", "--project", project] ++
    (match deadline with
     | some d => if d = 0 then [] else ["--deadline", toString d]
     | none => []) ++
    (if email then [] else ["--no-mail"])

/-- The delivery_orders table together with the autoincrement counter. -/
structure DeliveryDb where
  orders : List DeliveryOrder
  next_id : Nat
deriving DecidableEq, Repr

/-- Modelled from the spec: the delivery-order repository
(create_delivery_order) is not under src/, only its callers are; per the
spec persistence interface, create(order) persists a new row and returns it
with a fresh id.  The row starts with the caller-supplied status and a NULL
pid. -/
def create_delivery_order (db : DeliveryDb) (delivery_source delivery_project : String)
    (ngi_project_name : Option String) (delivery_status : DeliveryStatus)
    (staging_order_id : Nat) : DeliveryOrder × DeliveryDb :=
  let ord : DeliveryOrder :=
    { id := db.next_id
      delivery_source := delivery_source
      delivery_project := delivery_project
      ngi_project_name := ngi_project_name
      dds_pid := none
      delivery_status := delivery_status
      staging_order_id := staging_order_id }
  (ord, { orders := db.orders ++ [ord], next_id := db.next_id + 1 })

/-- Modelled from the spec: update(order) commits the mutated row in place,
keyed by id. -/
def DeliveryDb.update (db : DeliveryDb) (ord : DeliveryOrder) : DeliveryDb :=
  { db with orders := db.orders.map fun o => if o.id = ord.id then ord else o }

/-- The guard message raised by both DDSProject.deliver and
DDSService.deliver_by_staging_id. -/
def deliverInvalidMsg : String :=
  "Only deliver by staging_id if it has a successful status!"

/-- Environment of one DDSProject._run_delivery run: the pid and outcome of
the `dds data put` subprocess, the outcome of the `dds project status
release` subprocess (consulted only when release is requested and the put
exited zero), and whether the DDSPut table holds in-progress uploads for
this project (the release assert consults it). -/
structure DeliverEnv where
  put_pid : Nat
  put : ProcOutcome
  release : ProcOutcome
  ongoing_puts : Bool
deriving Repr

/-- DDSProject.release (delivery/models/project.py): asserts that no uploads
are in progress, then spawns `dds project status release` and awaits it
through wait_for_execution (so a non-zero exit raises RuntimeError). -/
def DDSProject.release_run (env : DeliverEnv) (cfg : DDSConfig)
    (project_id : String) (deadline : Option Nat) (email : Bool) :
    Except PyError Unit × List Event :=
  if env.ongoing_puts then (.error .assertionError, [])
  else
    let cmd := releaseCmd cfg project_id deadline email
    match wait_for_execution env.release with
    | .error e => (.error e, [Event.run cmd])
    | .ok _ => (.ok (), [Event.run cmd])

/-- DDSProject._run_delivery (delivery/models/project.py).  The result
collects the outcome, the final delivery order row, the events up to the
first suspension point (the subprocess spawn and the delivery_in_progress
commit run synchronously when the coroutine is invoked) and the events after
it.  On a zero put exit the staged directory is removed, then the project is
released when requested, then the status is set to delivery_successful; any
exception (the RuntimeError from a non-zero put exit raised by
wait_for_execution, a failed release, a firing release assert) lands in the
except clause which sets delivery_failed; the finally block always commits
the current status.  It is split in two: runDeliveryPost is the part after
the first suspension point (the yield on wait_for_execution), acting on the
order row as mutated and committed before the suspension; runDelivery wires
it to the pre-suspension part. -/
def runDeliveryPost (env : DeliverEnv) (cfg : DDSConfig) (project_id : String)
    (ord1 : DeliveryOrder) (so : StagingOrder) (deadline : Option Nat)
    (release email : Bool) :
    Except PyError Unit × DeliveryOrder × List Event :=
  match wait_for_execution env.put with
  | .error e =>
    let ord2 : DeliveryOrder := { ord1 with delivery_status := .delivery_failed }
    (.error e, ord2, [Event.commitDelivery ord2])
  | .ok res =>
    if res.status_code = 0 then
      let post0 := [Event.rmtree so.staging_target]
      if release then
        match DDSProject.release_run env cfg project_id deadline email with
        | (.error e, revs) =>
          let ord2 : DeliveryOrder :=
            { ord1 with delivery_status := .delivery_failed }
          (.error e, ord2, post0 ++ revs ++ [Event.commitDelivery ord2])
        | (.ok _, revs) =>
          let ord2 : DeliveryOrder :=
            { ord1 with delivery_status := .delivery_successful }
          (.ok (), ord2, post0 ++ revs ++ [Event.commitDelivery ord2])
      else
        let ord2 : DeliveryOrder :=
          { ord1 with delivery_status := .delivery_successful }
        (.ok (), ord2, post0 ++ [Event.commitDelivery ord2])
    else
      let ord2 : DeliveryOrder := { ord1 with delivery_status := .delivery_failed }
      (.error (.runtimeError (.failedToDeliver res.status_code)), ord2,
        [Event.logError .ddsNonZero, Event.commitDelivery ord2])

def runDelivery (env : DeliverEnv) (cfg : DDSConfig) (cmd : List String)
    (project_id : String) (ord : DeliveryOrder) (so : StagingOrder)
    (deadline : Option Nat) (release email : Bool) :
    Except PyError Unit × DeliveryOrder × List Event × List Event :=
  let ord1 : DeliveryOrder :=
    { ord with delivery_status := .delivery_in_progress,
               dds_pid := some env.put_pid }
  let r := runDeliveryPost env cfg project_id ord1 so deadline release email
  (r.1, r.2.1, [Event.run cmd, Event.commitDelivery ord1], r.2.2)

/-- Environment of one DDSService._run_dds_put run: the pid and outcome of
the `dds data put` subprocess. -/
structure PutEnv where
  put_pid : Nat
  put : ProcOutcome
deriving Repr

/-- DDSService._run_dds_put (delivery/services/dds_service.py).  Spawns the
put command and commits delivery_in_progress (the pid is assigned to
mover_pid, which is not a mapped DeliveryOrder column, so the commit makes
only the status durable), then awaits the execution: delivery_successful on
a zero exit, else the dead else branch, with any exception landing in the
except clause that sets delivery_failed; the finally block always commits.
The trace is split at the suspension point like runDelivery:
runDdsPutPost is the part after the first suspension point. -/
def runDdsPutPost (env : PutEnv) (ord1 : DeliveryOrder) :
    Except PyError Unit × DeliveryOrder × List Event :=
  match wait_for_execution env.put with
  | .error e =>
    let ord2 : DeliveryOrder := { ord1 with delivery_status := .delivery_failed }
    (.error e, ord2,
      [Event.logError .deliveryException, Event.commitDelivery ord2])
  | .ok res =>
    if res.status_code = 0 then
      let ord2 : DeliveryOrder :=
        { ord1 with delivery_status := .delivery_successful }
      (.ok (), ord2, [Event.commitDelivery ord2])
    else
      let ord2 : DeliveryOrder := { ord1 with delivery_status := .delivery_failed }
      (.error (.runtimeError (.failedToDeliver res.status_code)), ord2,
        [Event.logError .ddsNonZero, Event.logError .deliveryException,
         Event.commitDelivery ord2])

def runDdsPut (env : PutEnv) (cmd : List String) (ord : DeliveryOrder) :
    Except PyError Unit × DeliveryOrder × List Event × List Event :=
  let ord1 : DeliveryOrder := { ord with delivery_status := .delivery_in_progress }
  let r := runDdsPutPost env ord1
  (r.1, r.2.1, [Event.run cmd, Event.commitDelivery ord1], r.2.2)

/-- DDSProject.deliver (delivery/models/project.py).  Loads the staging
order and raises InvalidStatusException unless it exists with status
staging_successful; reads the ngi project name off the DDSDelivery row for
this project (ngiRow? none models a missing row, whose attribute access
raises AttributeError); creates a pending DeliveryOrder; on skip_delivery
sets delivery_skipped and commits; otherwise invokes _run_delivery without
yielding it, so only the events up to its first suspension happen before
deliver returns the order id — the rest belong to the background task.  The
components are: result, the delivery_orders table after the background task
has finished, the foreground trace, and the background trace. -/
def DDSProject.deliver (env : DeliverEnv) (cfg : DDSConfig) (project_id : String)
    (ngiRow? : Option (Option String)) (so? : Option StagingOrder)
    (db : DeliveryDb) (skip_delivery : Bool) (deadline : Option Nat)
    (release email : Bool) :
    Except PyError Nat × DeliveryDb × List Event × List Event :=
  match so? with
  | none => (.error (.invalidStatus deliverInvalidMsg), db, [], [])
  | some so =>
    if so.status ≠ .staging_successful then
      (.error (.invalidStatus deliverInvalidMsg), db, [], [])
    else
      match ngiRow? with
      | none => (.error .attributeError, db, [], [])
      | some ngi =>
        let (ord, db1) := create_delivery_order db so.get_staging_path
          project_id ngi .pending so.id
        let cmd := dataPutCmd cfg ord.delivery_source ord.delivery_project
        if skip_delivery then
          let ord1 : DeliveryOrder :=
            { ord with delivery_status := .delivery_skipped }
          (.ok ord.id, db1.update ord1,
            [Event.commitDelivery ord, Event.commitDelivery ord1], [])
        else
          let r := runDelivery env cfg cmd project_id ord so deadline release email
          (.ok ord.id, db1.update r.2.1,
            Event.commitDelivery ord :: r.2.2.1, r.2.2.2)

/-- DDSService.deliver_by_staging_id (delivery/services/dds_service.py).
Loads the staging order and raises InvalidStatusException unless it exists
with status staging_successful; creates a pending DeliveryOrder; either
commits delivery_skipped (skip_mover) or yields _run_dds_put, awaiting the
whole upload, so all of its events happen before this call returns and its
exception propagates out of this call; afterwards the staged directory is
removed — on the skip path too — and the order id is returned. -/
def DDSService.deliver_by_staging_id (env : PutEnv) (cfg : DDSConfig)
    (so? : Option StagingOrder) (db : DeliveryDb) (delivery_project : String)
    (skip_mover : Bool) :
    Except PyError Nat × DeliveryDb × List Event :=
  match so? with
  | none => (.error (.invalidStatus deliverInvalidMsg), db, [])
  | some so =>
    if so.status ≠ .staging_successful then
      (.error (.invalidStatus deliverInvalidMsg), db, [])
    else
      let (ord, db1) := create_delivery_order db so.get_staging_path
        delivery_project none .pending so.id
      if skip_mover then
        let ord1 : DeliveryOrder :=
          { ord with delivery_status := .delivery_skipped }
        (.ok ord.id, db1.update ord1,
          [Event.commitDelivery ord, Event.commitDelivery ord1,
           Event.rmtree so.staging_target])
      else
        let cmd := dataPutCmd cfg ord.delivery_source ord.delivery_project
        let r := runDdsPut env cmd ord
        match r.1 with
        | .error e =>
          (.error e, db1.update r.2.1,
            Event.commitDelivery ord :: (r.2.2.1 ++ r.2.2.2))
        | .ok _ =>
          (.ok ord.id, db1.update r.2.1,
            (Event.commitDelivery ord :: (r.2.2.1 ++ r.2.2.2)) ++
              [Event.rmtree so.staging_target])

/-- Scans a trace left to right: false when a directory removal occurs
before any commit of a delivery_successful status. -/
def deletesOnlyAfterSuccessCommit : List Event → Bool
  | [] => true
  | Event.commitDelivery o :: rest =>
    if o.delivery_status = .delivery_successful then true
    else deletesOnlyAfterSuccessCommit rest
  | Event.rmtree _ :: _ => false
  | _ :: rest => deletesOnlyAfterSuccessCommit rest

/-- Whether a trace contains a commit of a terminal upload status, i.e. the
observable completion of the upload. -/
def containsUploadCompletion (evs : List Event) : Bool :=
  evs.any fun e =>
    match e with
    | Event.commitDelivery o =>
      o.delivery_status == .delivery_successful
        || o.delivery_status == .delivery_failed
    | _ => false

/-- The status made durable by the last commit of a delivery order row in
the trace, if any. -/
def lastCommittedDeliveryStatus (evs : List Event) : Option DeliveryStatus :=
  evs.reverse.findSome? fun e =>
    match e with
    | Event.commitDelivery o => some o.delivery_status
    | _ => none

/-! ## Concrete inputs used by witnesses and counterexamples -/

/-- A pending staging order. -/
def soPend : StagingOrder := ⟨1, "/data/proj1", .pending, "/staging/1", none, none⟩

/-- An in-progress staging order with a tracked pid. -/
def soProg : StagingOrder :=
  ⟨2, "/data/proj1", .staging_in_progress, "/staging/2", none, some 4711⟩

/-- An in-progress staging order whose pid column is still NULL (the window
between the staging_in_progress commit in stage_order and the pid commit in
_copy_dir). -/
def soProgNoPid : StagingOrder :=
  ⟨3, "/data/proj1", .staging_in_progress, "/staging/3", none, none⟩

/-- A successfully staged order. -/
def soSucc : StagingOrder :=
  ⟨4, "/data/proj1", .staging_successful, "/staging/4", some 1024, some 4712⟩

/-- A failed staging order. -/
def soFail : StagingOrder :=
  ⟨5, "/data/proj1", .staging_failed, "/staging/5", none, some 4713⟩

/-- A dds configuration. -/
def cfg0 : DDSConfig := ⟨"/token", "/log/dds.log", "/staging"⟩

/-- An empty delivery_orders table. -/
def db0 : DeliveryDb := ⟨[], 1⟩

/-- A zero-exit process outcome. -/
def okProc : ProcOutcome := ⟨0, "ok", ""⟩

/-- A non-zero-exit process outcome. -/
def badProc : ProcOutcome := ⟨1, "", "upload blew up"⟩

/-- Delivery environment where the put and the release both exit zero. -/
def denvOK : DeliverEnv := ⟨101, okProc, okProc, false⟩

/-- Delivery environment where the put exits non-zero. -/
def denvBad : DeliverEnv := ⟨102, badProc, okProc, false⟩

/-- Put environment where the upload exits zero. -/
def penvOK : PutEnv := ⟨103, okProc⟩

/-- Put environment where the upload exits non-zero. -/
def penvBad : PutEnv := ⟨104, badProc⟩

/-- Staging environment: target exists, rsync exits zero with a stats
report. -/
def envS : StageEnv :=
  ⟨true, true, ⟨105, ⟨0, "Total file size: 1,024 bytes", ""⟩⟩⟩

/-- The full event trace of a _run_delivery run: the part before the first
suspension followed by the part after it. -/
def runDeliveryTrace (env : DeliverEnv) (cfg : DDSConfig) (cmd : List String)
    (projId : String) (ord : DeliveryOrder) (so : StagingOrder)
    (deadline : Option Nat) (release email : Bool) : List Event :=
  (runDelivery env cfg cmd projId ord so deadline release email).2.2.1 ++
    (runDelivery env cfg cmd projId ord so deadline release email).2.2.2

/-- The full event trace of a _run_dds_put run. -/
def runDdsPutTrace (env : PutEnv) (cmd : List String) (ord : DeliveryOrder) :
    List Event :=
  (runDdsPut env cmd ord).2.2.1 ++ (runDdsPut env cmd ord).2.2.2

/-- A delivery order as created by the deliver flow for soSucc. -/
def ordC : DeliveryOrder :=
  ⟨1, "/staging/4", "snpseq00001", some "AB-1234", none, .pending, 4⟩

/-! ## Helper lemmas -/

theorem wait_for_execution_ok_iff (p : ProcOutcome) (r : ExecutionResult) :
    wait_for_execution p = .ok r ↔
      p.status_code = 0 ∧ r = ⟨p.stdout, p.stderr, p.status_code⟩ := by
  unfold wait_for_execution
  split
  · simp only [reduceCtorEq, false_iff, not_and]
    intro h
    omega
  · rename_i h
    simp only [ne_eq, not_not] at h
    simp [h, eq_comm]

theorem wait_for_execution_ok_status (p : ProcOutcome) (r : ExecutionResult)
    (h : wait_for_execution p = .ok r) : r.status_code = 0 := by
  rcases (wait_for_execution_ok_iff p r).mp h with ⟨h0, rfl⟩
  exact h0

theorem wait_for_execution_error (p : ProcOutcome) (h : p.status_code ≠ 0) :
    wait_for_execution p =
      .error (.runtimeError (.failedExternalCommand p.stderr p.status_code)) := by
  unfold wait_for_execution
  simp [h]

/-- Sanity: the fixture output from the unit test test_parse_dds_project_id
parses to snpseq00003. -/
theorem parse_dds_project_id_fixture :
    parse_dds_project_id
      "Current user: bio\nProject created with id: snpseq00003\nUser forskare" =
      .ok "snpseq00003" := by
  rfl

/-- The release coroutine only ever spawns a process, it does not log at the
tagged call sites. -/
theorem release_run_no_logError (env : DeliverEnv) (cfg : DDSConfig)
    (projId : String) (deadline : Option Nat) (email : Bool) (t : LogTag) :
    Event.logError t ∉ (DDSProject.release_run env cfg projId deadline email).2 := by
  unfold DDSProject.release_run
  rcases hp : env.ongoing_puts with _ | _
  · simp
    rcases hw : wait_for_execution env.release with e | r <;> simp
  · simp

/-- The dead else branch of _run_delivery (a returned result with non-zero
status) never logs, for any environment. -/
theorem runDeliveryPost_no_ddsNonZero (env : DeliverEnv) (cfg : DDSConfig)
    (projId : String) (ord1 : DeliveryOrder) (so : StagingOrder)
    (deadline : Option Nat) (release email : Bool) :
    Event.logError .ddsNonZero ∉
      (runDeliveryPost env cfg projId ord1 so deadline release email).2.2 := by
  unfold runDeliveryPost
  rcases h : wait_for_execution env.put with e | res
  · simp
  · have h0 := wait_for_execution_ok_status _ _ h
    rcases hrel : release with _ | _
    · simp [h0]
    · rcases hr : DDSProject.release_run env cfg projId deadline email with
        ⟨res2, revs⟩
      have hnolog := release_run_no_logError env cfg projId deadline email .ddsNonZero
      rw [hr] at hnolog
      rcases res2 with e2 | u <;> simp [h0, hr] <;> simpa using hnolog

/-- The dead else branch of _run_dds_put never logs, for any environment. -/
theorem runDdsPutPost_no_ddsNonZero (env : PutEnv) (ord1 : DeliveryOrder) :
    Event.logError .ddsNonZero ∉ (runDdsPutPost env ord1).2.2 := by
  unfold runDdsPutPost
  rcases h : wait_for_execution env.put with e | res
  · simp
  · have h0 := wait_for_execution_ok_status _ _ h
    simp [h0]

/-- Every branch of the post-suspension part of _run_delivery ends with a
commit of a terminal upload status. -/
theorem runDeliveryPost_completion (env : DeliverEnv) (cfg : DDSConfig)
    (projId : String) (ord1 : DeliveryOrder) (so : StagingOrder)
    (deadline : Option Nat) (release email : Bool) :
    containsUploadCompletion
      (runDeliveryPost env cfg projId ord1 so deadline release email).2.2
      = true := by
  unfold runDeliveryPost
  rcases h : wait_for_execution env.put with e | res
  · simp [containsUploadCompletion]
  · have h0 := wait_for_execution_ok_status _ _ h
    rcases hrel : release with _ | _
    · simp [h0, containsUploadCompletion]
    · rcases hr : DDSProject.release_run env cfg projId deadline email with
        ⟨res2, revs⟩
      rcases res2 with e2 | u <;>
        simp [h0, hr, containsUploadCompletion]

theorem containsUploadCompletion_append (l1 l2 : List Event) :
    containsUploadCompletion (l1 ++ l2) =
      (containsUploadCompletion l1 || containsUploadCompletion l2) := by
  simp [containsUploadCompletion]

/-- Every branch of the post-suspension part of _run_dds_put ends with a
commit of a terminal upload status. -/
theorem runDdsPutPost_completion (env : PutEnv) (ord1 : DeliveryOrder) :
    containsUploadCompletion (runDdsPutPost env ord1).2.2 = true := by
  unfold runDdsPutPost
  rcases h : wait_for_execution env.put with e | res
  · simp [containsUploadCompletion]
  · have h0 := wait_for_execution_ok_status _ _ h
    simp [h0, containsUploadCompletion]

/-- When the upload exits zero, the post-suspension part of _run_delivery
begins by removing the staged directory. -/
theorem runDeliveryPost_starts_rmtree (env : DeliverEnv) (cfg : DDSConfig)
    (projId : String) (ord1 : DeliveryOrder) (so : StagingOrder)
    (deadline : Option Nat) (release email : Bool)
    (h0 : env.put.status_code = 0) :
    ∃ rest,
      (runDeliveryPost env cfg projId ord1 so deadline release email).2.2 =
        Event.rmtree so.staging_target :: rest := by
  have hw : wait_for_execution env.put =
      .ok ⟨env.put.stdout, env.put.stderr, env.put.status_code⟩ := by
    unfold wait_for_execution
    simp [h0]
  unfold runDeliveryPost
  rw [hw]
  rcases hrel : release with _ | _
  · exact ⟨[Event.commitDelivery
      { ord1 with delivery_status := .delivery_successful }], by simp [h0]⟩
  · rcases hr : DDSProject.release_run env cfg projId deadline email with
      ⟨res2, revs⟩
    rcases res2 with e2 | u
    · exact ⟨revs ++ [Event.commitDelivery
        { ord1 with delivery_status := .delivery_failed }], by simp [h0, hr]⟩
    · exact ⟨revs ++ [Event.commitDelivery
        { ord1 with delivery_status := .delivery_successful }],
        by simp [h0, hr]⟩

/-! ## Claims -/

/-- C1: for every staging id, if the referenced StagingOrder is missing or
its status is not staging_successful, then both DDSProject.deliver and
DDSService.deliver_by_staging_id fail with the InvalidStatusException guard
and leave the delivery_orders table unchanged (no DeliveryOrder row is
created), with no side effect. -/
theorem claim_C1_deliver_guard (denv : DeliverEnv) (penv : PutEnv)
    (cfg : DDSConfig) (project_id dproj : String)
    (ngiRow? : Option (Option String)) (db : DeliveryDb) (skip : Bool)
    (deadline : Option Nat) (release email skipm : Bool) (so : StagingOrder)
    (h : so.status ≠ .staging_successful) :
    DDSProject.deliver denv cfg project_id ngiRow? none db skip deadline
        release email
      = (.error (.invalidStatus deliverInvalidMsg), db, [], []) ∧
    DDSProject.deliver denv cfg project_id ngiRow? (some so) db skip deadline
        release email
      = (.error (.invalidStatus deliverInvalidMsg), db, [], []) ∧
    DDSService.deliver_by_staging_id penv cfg none db dproj skipm
      = (.error (.invalidStatus deliverInvalidMsg), db, []) ∧
    DDSService.deliver_by_staging_id penv cfg (some so) db dproj skipm
      = (.error (.invalidStatus deliverInvalidMsg), db, []) := by
  refine ⟨rfl, ?_, rfl, ?_⟩ <;>
    simp [DDSProject.deliver, DDSService.deliver_by_staging_id, h]

/-- Witness for C1 at a staging order stuck in staging_failed. -/
theorem claim_C1_witness :
    soFail.status ≠ .staging_successful ∧
    (DDSProject.deliver denvOK cfg0 "snpseq00001" (some (some "AB-1234"))
        (some soFail) db0 false none true true
      = (.error (.invalidStatus deliverInvalidMsg), db0, [], []) ∧
    DDSService.deliver_by_staging_id penvOK cfg0 (some soFail) db0
        "snpseq00001" false
      = (.error (.invalidStatus deliverInvalidMsg), db0, [])) :=
  ⟨by decide,
    (claim_C1_deliver_guard denvOK penvOK cfg0 "snpseq00001" "snpseq00001"
      (some (some "AB-1234")) db0 false none true true false soFail
      (by decide)).2.1,
    (claim_C1_deliver_guard denvOK penvOK cfg0 "snpseq00001" "snpseq00001"
      (some (some "AB-1234")) db0 false none true true false soFail
      (by decide)).2.2.2⟩

/-- C5: was_delivered_before(project, source) is true exactly when some
DDSPut row joined (on the dds_project_id foreign key) to a DDSDelivery row
with the given ngi project name has delivery_source equal to the given
source; the statuses of the rows play no role, so rewriting every put
status (e.g. to delivery_failed) does not change the answer. -/
theorem claim_C5_was_delivered_before (db : DDSDatabase) (p s : String) :
    (was_delivered_before db p s = true ↔
      ∃ put ∈ db.dds_puts, ∃ dd ∈ db.dds_deliveries,
        put.dds_project_id = dd.dds_project_id ∧
        dd.ngi_project_name = some p ∧ put.delivery_source = s) ∧
    (∀ f : DDSPut → DeliveryStatus,
      was_delivered_before
        ⟨db.dds_deliveries, db.dds_puts.map fun put => { put with status := f put }⟩
        p s
        = was_delivered_before db p s) := by
  constructor
  · simp [was_delivered_before, List.any_eq_true, Bool.and_eq_true, and_assoc]
  · intro f
    simp [was_delivered_before, List.any_map, Function.comp_def]

/-- C7: stage_order on an order whose status is not pending fails with the
invalid-state error and spawns no copy process on that call (no subprocess
spawn event occurs in its trace). -/
theorem claim_C7_stage_order_guard (env : StageEnv) (so : StagingOrder)
    (h : so.status ≠ .pending) :
    (stageOrder env so).1 = .error (.invalidStatus stageInvalidMsg) ∧
    ∀ cmd, Event.run cmd ∉ (stageOrder env so).2.2 := by
  simp [stageOrder, h]

/-- Witness for C7 at a staging_successful order. -/
theorem claim_C7_witness :
    soSucc.status ≠ .pending ∧
    ((stageOrder envS soSucc).1 = .error (.invalidStatus stageInvalidMsg) ∧
      ∀ cmd, Event.run cmd ∉ (stageOrder envS soSucc).2.2) :=
  ⟨by decide, claim_C7_stage_order_guard envS soSucc (by decide)⟩

/-- C8 counterexample: an order that exists in staging_in_progress but whose
pid column is still NULL (reachable, since stage_order commits
staging_in_progress before _copy_dir commits the pid).  The claim says every
case other than a delivered signal returns false with the status unchanged,
but here os.kill(None, SIGTERM) raises TypeError, which no except clause
catches, so the call raises instead of returning false. -/
theorem claim_C8_counterexample :
    kill_process_of_staging_order ⟨true⟩ (some soProgNoPid) ≠
      .ok (false, some soProgNoPid) ∧
    kill_process_of_staging_order ⟨true⟩ (some soProgNoPid) =
      .error .typeError := by
  have h : kill_process_of_staging_order ⟨true⟩ (some soProgNoPid) =
      .error .typeError := rfl
  exact ⟨by rw [h]; simp, h⟩

/-- C8 amended: kill_process_of_staging_order returns true and sets the
order status to staging_failed exactly when the order exists, is in
staging_in_progress, has a recorded pid, and the signal delivery succeeds;
when the order exists in staging_in_progress with a NULL pid the TypeError
raised by os.kill propagates instead of a boolean being returned; in every
other case (order missing, status not staging_in_progress, or the OS signal
fails) it returns false and leaves the order unchanged. -/
theorem claim_C8_kill_amended (env : KillEnv) (so? : Option StagingOrder) :
    (∀ r, kill_process_of_staging_order env so? = .ok (true, r) ↔
      ∃ so p, so? = some so ∧ so.status = .staging_in_progress ∧
        so.pid = some p ∧ env.signalOk = true ∧
        r = some { so with status := .staging_failed }) ∧
    (∀ r, kill_process_of_staging_order env so? = .ok (false, r) → r = so?) ∧
    (kill_process_of_staging_order env so? = .error .typeError ↔
      ∃ so, so? = some so ∧ so.status = .staging_in_progress ∧
        so.pid = none) := by
  rcases so? with _ | so
  · refine ⟨fun r => ?_, fun r h => ?_, ?_⟩
    · simp [kill_process_of_staging_order]
    · simpa [kill_process_of_staging_order, eq_comm] using h
    · simp [kill_process_of_staging_order]
  · by_cases hst : so.status = .staging_in_progress
    · rcases hp : so.pid with _ | p
      · have hk : kill_process_of_staging_order env (some so) =
            .error .typeError := by
          simp [kill_process_of_staging_order, hst, hp]
        refine ⟨fun r => ?_, fun r h => ?_, ?_⟩
        · rw [hk]
          simp [hp]
        · rw [hk] at h
          simp at h
        · rw [hk]
          simp [hst, hp]
      · by_cases hsig : env.signalOk = true
        · have hk : kill_process_of_staging_order env (some so) =
              .ok (true, some { so with status := .staging_failed }) := by
            simp [kill_process_of_staging_order, hst, hp, hsig]
          refine ⟨fun r => ?_, fun r h => ?_, ?_⟩
          · rw [hk]
            constructor
            · intro h
              simp only [Except.ok.injEq, Prod.mk.injEq, true_and] at h
              exact ⟨so, p, rfl, hst, hp, hsig, h.symm⟩
            · rintro ⟨so1, p1, hso, hst1, hp1, hsig1, hr⟩
              cases hso
              rw [hr]
          · rw [hk] at h
            simp at h
          · rw [hk]
            simp [hp]
        · have hk : kill_process_of_staging_order env (some so) =
              .ok (false, some so) := by
            simp [kill_process_of_staging_order, hst, hp, hsig]
          refine ⟨fun r => ?_, fun r h => ?_, ?_⟩
          · rw [hk]
            simp [hsig]
          · rw [hk] at h
            simp only [Except.ok.injEq, Prod.mk.injEq, true_and] at h
            exact h.symm
          · rw [hk]
            simp [hp]
    · have hk : kill_process_of_staging_order env (some so) =
          .ok (false, some so) := by
        simp [kill_process_of_staging_order, hst]
      refine ⟨fun r => ?_, fun r h => ?_, ?_⟩
      · rw [hk]
        simp [hst]
      · rw [hk] at h
        simp only [Except.ok.injEq, Prod.mk.injEq, true_and] at h
        exact h.symm
      · rw [hk]
        simp [hst]

/-- Witness for C8 amended: killing an in-progress order with a tracked pid
under a delivered signal returns true with status staging_failed. -/
theorem claim_C8_witness :
    kill_process_of_staging_order ⟨true⟩ (some soProg) =
      .ok (true, some { soProg with status := .staging_failed }) :=
  ((claim_C8_kill_amended ⟨true⟩ (some soProg)).1
      (some { soProg with status := .staging_failed })).mpr
    ⟨soProg, 4711, rfl, rfl, rfl, rfl, rfl⟩

/-- C9: in remote-project creation, a zero exit whose stdout lacks the fixed
pattern raises CannotParseDDSOutputException, while a non-zero exit raises a
RuntimeError carrying the captured stderr; the two error types are
distinct. -/
theorem claim_C9_create_error_types (p : ProcOutcome) :
    (p.status_code = 0 → hasDDSProjectIdPattern p.stdout = false →
      createProjectId p = .error (.cannotParseDDSOutput p.stdout)) ∧
    (p.status_code ≠ 0 →
      createProjectId p =
        .error (.runtimeError (.failedExternalCommand p.stderr p.status_code))) ∧
    (∀ s msg, PyError.cannotParseDDSOutput s ≠ PyError.runtimeError msg) := by
  refine ⟨?_, ?_, fun s msg h => by cases h⟩
  · intro h0 hpat
    have hscan : ddsIdScan p.stdout.toList = none := by
      unfold hasDDSProjectIdPattern at hpat
      simpa [Option.isSome_iff_exists] using hpat
    have hw : wait_for_execution p = .ok ⟨p.stdout, p.stderr, p.status_code⟩ := by
      unfold wait_for_execution
      simp [h0]
    have hred : createProjectId p = parse_dds_project_id p.stdout := by
      unfold createProjectId
      rw [hw]
      rfl
    rw [hred]
    unfold parse_dds_project_id
    rw [hscan]
  · intro h
    unfold createProjectId
    rw [wait_for_execution_error p h]
    rfl

/-- Witness for C9: a zero exit with unparseable stdout and a non-zero exit
with captured stderr produce the two distinct error types. -/
theorem claim_C9_witness :
    ((⟨0, "no project id in here", ""⟩ : ProcOutcome).status_code = 0 ∧
      hasDDSProjectIdPattern "no project id in here" = false ∧
      createProjectId ⟨0, "no project id in here", ""⟩ =
        .error (.cannotParseDDSOutput "no project id in here")) ∧
    ((⟨2, "", "token expired"⟩ : ProcOutcome).status_code ≠ 0 ∧
      createProjectId ⟨2, "", "token expired"⟩ =
        .error (.runtimeError (.failedExternalCommand "token expired" 2))) :=
  ⟨⟨rfl, by decide,
      (claim_C9_create_error_types ⟨0, "no project id in here", ""⟩).1 rfl
        (by decide)⟩,
    ⟨by decide,
      (claim_C9_create_error_types ⟨2, "", "token expired"⟩).2.1 (by decide)⟩⟩

/-- C10: wait_for_execution raises on every non-zero exit status, so every
ExecutionResult it returns has status code zero; consequently the
non-zero-status else branches after a returned result — the staging_failed
branch in _copy_dir and the delivery_failed branches in _run_delivery and
_run_dds_put, identified by their log.error call sites — are unreachable for
every environment. -/
theorem claim_C10_nonzero_is_exception :
    (∀ p r, wait_for_execution p = .ok r → r.status_code = 0) ∧
    (∀ env so, Event.logError .rsyncNonZero ∉ (copyDir env so).2) ∧
    (∀ denv cfg cmd projId ord so deadline release email,
      Event.logError .ddsNonZero ∉
        ((runDelivery denv cfg cmd projId ord so deadline release email).2.2.1 ++
          (runDelivery denv cfg cmd projId ord so deadline release email).2.2.2)) ∧
    (∀ penv cmd ord,
      Event.logError .ddsNonZero ∉
        ((runDdsPut penv cmd ord).2.2.1 ++ (runDdsPut penv cmd ord).2.2.2)) := by
  refine ⟨wait_for_execution_ok_status, ?_, ?_, ?_⟩
  · intro env so
    unfold copyDir
    rcases h : wait_for_execution env.rsync with e | res
    · simp
    · have h0 := wait_for_execution_ok_status _ _ h
      rcases hs : rsyncSizeScan res.stdout.data with _ | n <;> simp [h0, hs]
  · intro denv cfg cmd projId ord so deadline release email
    intro hmem
    rcases List.mem_append.mp hmem with h1 | h2
    · simp [runDelivery] at h1
    · exact runDeliveryPost_no_ddsNonZero denv cfg projId _ so deadline release
        email (by simpa [runDelivery] using h2)
  · intro penv cmd ord
    intro hmem
    rcases List.mem_append.mp hmem with h1 | h2
    · simp [runDdsPut] at h1
    · exact runDdsPutPost_no_ddsNonZero penv _ (by simpa [runDdsPut] using h2)

/-- Witness for C10: a zero-exit execution is returned and carries status
code zero. -/
theorem claim_C10_witness :
    wait_for_execution okProc = .ok ⟨"ok", "", 0⟩ ∧
    (⟨"ok", "", 0⟩ : ExecutionResult).status_code = 0 :=
  ⟨rfl, claim_C10_nonzero_is_exception.1 okProc ⟨"ok", "", 0⟩ rfl⟩

/-- C2 counterexample: a successful _run_delivery run (upload exits zero, no
release requested).  The run ends with delivery_successful committed and the
staged directory removed, yet the removal happens before the
delivery_successful commit, so the deletion is not guarded by the durable
status write the claim requires. -/
theorem claim_C2_counterexample :
    lastCommittedDeliveryStatus
        (runDeliveryTrace denvOK cfg0
          (dataPutCmd cfg0 "/staging/4" "snpseq00001") "snpseq00001" ordC
          soSucc none false true)
      = some .delivery_successful ∧
    Event.rmtree "/staging/4" ∈
      runDeliveryTrace denvOK cfg0
        (dataPutCmd cfg0 "/staging/4" "snpseq00001") "snpseq00001" ordC
        soSucc none false true ∧
    deletesOnlyAfterSuccessCommit
        (runDeliveryTrace denvOK cfg0
          (dataPutCmd cfg0 "/staging/4" "snpseq00001") "snpseq00001" ordC
          soSucc none false true)
      = false := by
  refine ⟨rfl, ?_, rfl⟩
  decide

/-- C2 amended: in DDSService.deliver_by_staging_id (with skip_mover false)
the staged directory is deleted only after _run_dds_put has committed
delivery_successful, but in DDSProject._run_delivery the staged directory is
deleted right after a zero-exit upload and before the delivery_successful
commit, which only happens in the finally block after the deletion and the
optional release. -/
theorem claim_C2_amended_commit_order (penv : PutEnv) (cfg : DDSConfig)
    (so? : Option StagingOrder) (db : DeliveryDb) (proj : String)
    (denv : DeliverEnv) (cfg2 : DDSConfig) (cmd : List String)
    (projId : String) (ord : DeliveryOrder) (so : StagingOrder)
    (deadline : Option Nat) (release email : Bool)
    (h0 : denv.put.status_code = 0) :
    deletesOnlyAfterSuccessCommit
        (DDSService.deliver_by_staging_id penv cfg so? db proj false).2.2
      = true ∧
    deletesOnlyAfterSuccessCommit
        (runDeliveryTrace denv cfg2 cmd projId ord so deadline release email)
      = false := by
  constructor
  · rcases so? with _ | so2
    · rfl
    · by_cases hst : so2.status = .staging_successful
      · rcases h : wait_for_execution penv.put with e | res
        · simp [DDSService.deliver_by_staging_id, hst, runDdsPut,
            runDdsPutPost, h, deletesOnlyAfterSuccessCommit]
        · have hz := wait_for_execution_ok_status _ _ h
          simp [DDSService.deliver_by_staging_id, hst, runDdsPut,
            runDdsPutPost, h, hz, deletesOnlyAfterSuccessCommit]
      · simp [DDSService.deliver_by_staging_id, hst,
          deletesOnlyAfterSuccessCommit]
  · obtain ⟨rest, hrest⟩ :=
      runDeliveryPost_starts_rmtree denv cfg2 projId
        { ord with delivery_status := .delivery_in_progress,
                   dds_pid := some denv.put_pid } so deadline release email h0
    unfold runDeliveryTrace runDelivery
    rw [hrest]
    simp [deletesOnlyAfterSuccessCommit]

/-- Witness for C2 amended at the concrete success environment. -/
theorem claim_C2_witness :
    denvOK.put.status_code = 0 ∧
    deletesOnlyAfterSuccessCommit
        (DDSService.deliver_by_staging_id penvOK cfg0 (some soSucc) db0
          "snpseq00001" false).2.2
      = true :=
  ⟨rfl,
    (claim_C2_amended_commit_order penvOK cfg0 (some soSucc) db0 "snpseq00001"
      denvOK cfg0 [] "snpseq00001" ordC soSucc none false true rfl).1⟩

/-- C3 counterexample: DDSService.deliver_by_staging_id yields _run_dds_put,
so by the time it returns the order id its own trace already contains the
terminal status commit of the upload (the caller awaited the upload to
completion); moreover, when the upload fails the call raises instead of
returning the order id, so the outcome is not only observable by polling. -/
theorem claim_C3_counterexample :
    (DDSService.deliver_by_staging_id penvOK cfg0 (some soSucc) db0
        "snpseq00001" false).1 = .ok 1 ∧
    containsUploadCompletion
        (DDSService.deliver_by_staging_id penvOK cfg0 (some soSucc) db0
          "snpseq00001" false).2.2
      = true ∧
    (DDSService.deliver_by_staging_id penvBad cfg0 (some soSucc) db0
        "snpseq00001" false).1
      = .error (.runtimeError (.failedExternalCommand "upload blew up" 1)) :=
  ⟨rfl, rfl, rfl⟩

/-- C3 amended: DDSProject.deliver (with skip_delivery false) on a
staging_successful order returns the fresh order id while its foreground
trace contains no terminal upload commit and no directory removal — the
upload outcome lands in the background trace, observable only by polling
the persisted status; DDSService.deliver_by_staging_id instead awaits the
upload, so its trace contains the terminal commit before the id is
returned. -/
theorem claim_C3_amended_await (denv : DeliverEnv) (cfg : DDSConfig)
    (projId : String) (ngi : Option String) (so : StagingOrder)
    (db : DeliveryDb) (deadline : Option Nat) (release email : Bool)
    (penv : PutEnv) (cfg2 : DDSConfig) (so2 : StagingOrder)
    (db2 : DeliveryDb) (proj2 : String)
    (h : so.status = .staging_successful)
    (h2 : so2.status = .staging_successful) :
    (DDSProject.deliver denv cfg projId (some ngi) (some so) db false deadline
        release email).1 = .ok db.next_id ∧
    containsUploadCompletion
        (DDSProject.deliver denv cfg projId (some ngi) (some so) db false
          deadline release email).2.2.1
      = false ∧
    (∀ p, Event.rmtree p ∉
      (DDSProject.deliver denv cfg projId (some ngi) (some so) db false
        deadline release email).2.2.1) ∧
    containsUploadCompletion
        ((DDSProject.deliver denv cfg projId (some ngi) (some so) db false
            deadline release email).2.2.1 ++
          (DDSProject.deliver denv cfg projId (some ngi) (some so) db false
            deadline release email).2.2.2)
      = true ∧
    containsUploadCompletion
        (DDSService.deliver_by_staging_id penv cfg2 (some so2) db2 proj2
          false).2.2
      = true := by
  refine ⟨?_, ?_, ?_, ?_, ?_⟩
  · simp [DDSProject.deliver, h, create_delivery_order]
  · simp [DDSProject.deliver, h, create_delivery_order, runDelivery,
      containsUploadCompletion]
  · simp [DDSProject.deliver, h, create_delivery_order, runDelivery]
  · rw [containsUploadCompletion_append]
    have hbg :
        (DDSProject.deliver denv cfg projId (some ngi) (some so) db false
            deadline release email).2.2.2 =
          (runDeliveryPost denv cfg projId
            { id := db.next_id
              delivery_source := so.get_staging_path
              delivery_project := projId
              ngi_project_name := ngi
              dds_pid := some denv.put_pid
              delivery_status := .delivery_in_progress
              staging_order_id := so.id } so deadline release email).2.2 := by
      simp [DDSProject.deliver, h, create_delivery_order, runDelivery]
    rw [hbg, runDeliveryPost_completion, Bool.or_true]
  · rcases hw : wait_for_execution penv.put with e | res
    · simp [DDSService.deliver_by_staging_id, h2, runDdsPut, runDdsPutPost,
        hw, containsUploadCompletion]
    · have h0 := wait_for_execution_ok_status _ _ hw
      simp [DDSService.deliver_by_staging_id, h2, runDdsPut, runDdsPutPost,
        hw, h0, containsUploadCompletion]

/-- Witness for C3 amended at the concrete environments. -/
theorem claim_C3_witness :
    soSucc.status = .staging_successful ∧
    (DDSProject.deliver denvOK cfg0 "snpseq00001" (some (some "AB-1234"))
        (some soSucc) db0 false none true true).1 = .ok db0.next_id ∧
    containsUploadCompletion
        (DDSProject.deliver denvOK cfg0 "snpseq00001" (some (some "AB-1234"))
          (some soSucc) db0 false none true true).2.2.1
      = false :=
  ⟨rfl,
    (claim_C3_amended_await denvOK cfg0 "snpseq00001" (some "AB-1234") soSucc
      db0 none true true penvOK cfg0 soSucc db0 "snpseq00001" rfl rfl).1,
    (claim_C3_amended_await denvOK cfg0 "snpseq00001" (some "AB-1234") soSucc
      db0 none true true penvOK cfg0 soSucc db0 "snpseq00001" rfl rfl).2.1⟩

/-- C4 counterexample: stage_order invoked on an order in the terminal
status staging_successful raises the invalid-state guard, but its except
clause catches that very exception and overwrites the status to
staging_failed before re-raising — a transition out of a terminal state
without a new order. -/
theorem claim_C4_counterexample :
    soSucc.status = .staging_successful ∧
    (stageOrder envS soSucc).2.1.status = .staging_failed := by
  exact ⟨rfl, rfl⟩

/-- C4 amended: kill_process_of_staging_order leaves a terminal order
untouched (it returns false), and stage_order on a terminal order spawns no
copy and fails with the invalid-state error, but it also overwrites the
status of the terminal order to staging_failed, so the transition from
staging_successful to staging_failed is reachable without creating a new
order; only the remaining operations preserve terminal statuses. -/
theorem claim_C4_terminal_amended (kenv : KillEnv) (env : StageEnv)
    (so : StagingOrder)
    (h : so.status = .staging_successful ∨ so.status = .staging_failed) :
    kill_process_of_staging_order kenv (some so) = .ok (false, some so) ∧
    (stageOrder env so).1 = .error (.invalidStatus stageInvalidMsg) ∧
    (stageOrder env so).2.1 = { so with status := .staging_failed } ∧
    (∀ cmd, Event.run cmd ∉ (stageOrder env so).2.2) := by
  have hne : so.status ≠ .staging_in_progress := by
    rcases h with h | h <;> simp [h]
  have hnp : so.status ≠ .pending := by
    rcases h with h | h <;> simp [h]
  refine ⟨?_, ?_⟩
  · simp [kill_process_of_staging_order, hne]
  · simp [stageOrder, hnp]

/-- Witness for C4 amended at a staging_successful order. -/
theorem claim_C4_witness :
    (soSucc.status = .staging_successful ∨ soSucc.status = .staging_failed) ∧
    (kill_process_of_staging_order ⟨true⟩ (some soSucc) =
        .ok (false, some soSucc) ∧
      (stageOrder envS soSucc).1 = .error (.invalidStatus stageInvalidMsg) ∧
      (stageOrder envS soSucc).2.1 = { soSucc with status := .staging_failed } ∧
      ∀ cmd, Event.run cmd ∉ (stageOrder envS soSucc).2.2) :=
  ⟨Or.inl rfl, claim_C4_terminal_amended ⟨true⟩ envS soSucc (Or.inl rfl)⟩

/-- C6: whenever the upload execution ends in a non-zero exit code (which
wait_for_execution turns into a raised RuntimeError, the only upload
exception source in either routine), _run_delivery and _run_dds_put set and
commit delivery_failed as the last durable write and neither routine removes
the staged directory; conversely a directory removal occurs in
_run_delivery only when the upload exited zero, and _run_dds_put never
removes directories at all. -/
theorem claim_C6_failure_keeps_data (denv : DeliverEnv) (penv : PutEnv)
    (cfg : DDSConfig) (cmd cmd2 : List String) (projId : String)
    (ord ord2 : DeliveryOrder) (so : StagingOrder) (deadline : Option Nat)
    (release email : Bool) :
    (denv.put.status_code ≠ 0 →
      (runDelivery denv cfg cmd projId ord so deadline release email).2.1.delivery_status
          = .delivery_failed ∧
      lastCommittedDeliveryStatus
          (runDeliveryTrace denv cfg cmd projId ord so deadline release email)
        = some .delivery_failed ∧
      ∀ p, Event.rmtree p ∉
        runDeliveryTrace denv cfg cmd projId ord so deadline release email) ∧
    ((∃ p, Event.rmtree p ∈
        runDeliveryTrace denv cfg cmd projId ord so deadline release email) →
      denv.put.status_code = 0) ∧
    (penv.put.status_code ≠ 0 →
      (runDdsPut penv cmd2 ord2).2.1.delivery_status = .delivery_failed ∧
      lastCommittedDeliveryStatus (runDdsPutTrace penv cmd2 ord2)
        = some .delivery_failed) ∧
    (∀ p, Event.rmtree p ∉ runDdsPutTrace penv cmd2 ord2) := by
  refine ⟨?_, ?_, ?_, ?_⟩
  · intro hnz
    have hw := wait_for_execution_error denv.put hnz
    refine ⟨?_, ?_, ?_⟩ <;>
      simp [runDelivery, runDeliveryTrace, runDeliveryPost, hw,
        lastCommittedDeliveryStatus]
  · rintro ⟨p, hp⟩
    rcases hw : wait_for_execution denv.put with e | res
    · exfalso
      simp [runDelivery, runDeliveryTrace, runDeliveryPost, hw] at hp
    · exact ((wait_for_execution_ok_iff denv.put res).mp hw).1
  · intro hnz
    have hw := wait_for_execution_error penv.put hnz
    refine ⟨?_, ?_⟩ <;>
      simp [runDdsPut, runDdsPutTrace, runDdsPutPost, hw,
        lastCommittedDeliveryStatus]
  · intro p
    rcases hw : wait_for_execution penv.put with e | res
    · simp [runDdsPut, runDdsPutTrace, runDdsPutPost, hw]
    · have h0 := wait_for_execution_ok_status _ _ hw
      simp [runDdsPut, runDdsPutTrace, runDdsPutPost, hw, h0]

/-- Witness for C6 at a concrete failing upload. -/
theorem claim_C6_witness :
    denvBad.put.status_code ≠ 0 ∧
    ((runDelivery denvBad cfg0 [] "snpseq00001" ordC soSucc none true
        true).2.1.delivery_status = .delivery_failed ∧
      lastCommittedDeliveryStatus
          (runDeliveryTrace denvBad cfg0 [] "snpseq00001" ordC soSucc none
            true true)
        = some .delivery_failed ∧
      ∀ p, Event.rmtree p ∉
        runDeliveryTrace denvBad cfg0 [] "snpseq00001" ordC soSucc none true
          true) :=
  ⟨by decide,
    (claim_C6_failure_keeps_data denvBad penvBad cfg0 [] [] "snpseq00001"
      ordC ordC soSucc none true true).1 (by decide)⟩

end Arteria
